import Mathlib

/-!
Shallow embedding of `tor_requests.py` (class `TorRequestsWrapper` and the
`tor_request` decorator).  The network and the underlying HTTP client are
modelled as oracles; Python exceptions are modelled with an explicit error
type, and the mutation of `self.proxies` is modelled by explicit state
passing: every operation that can assign to an attribute returns the updated
wrapper value alongside its result.
-/

namespace TorWrap

/-- The dict returned by `_create_proxies`: keys `'http'` and `'https'`. -/
structure ProxySettings where
  http : String
  https : String
deriving DecidableEq, Repr

/-- Python exceptions that the code can raise or catch.  `requestError`
stands for `requests.RequestException`, `socketError` for `socket.error`,
`keyError` for the `KeyError` raised by `response.json()['ip']` when the
parsed JSON lacks the field, `proxyNotConfigured` for the bare `Exception`
raised by `_tor_request`, and `torConnectionFailed` for the bare `Exception`
raised by the decorator's wrapper. -/
inductive PyErr where
  | requestError
  | socketError
  | keyError
  | proxyNotConfigured
  | torConnectionFailed
deriving DecidableEq, Repr

/-- Outcome of one `requests.get(self.ip_check_url, proxies, timeout)` call
against the IP-check endpoint: either an HTTP response whose JSON carries an
`'ip'` field with the given string value, a `requests.RequestException`, a
`socket.error`, or a response whose JSON parses but has no `'ip'` key. -/
inductive ProbeResult where
  | ok (ip : String)
  | requestError
  | socketError
  | missingIpField
deriving DecidableEq, Repr

/-- The network oracle: what `requests.get url proxies timeout` observes at
the IP-check endpoint, as a function of the url, the proxy dict attached
(none for a direct request) and the timeout. -/
structure Net where
  probe : String → Option ProxySettings → Nat → ProbeResult

/-- State of a `TorRequestsWrapper` instance: the three configuration
attributes set in `__init__` plus the mutable `proxies` attribute
(`None` or a proxy dict). -/
structure TorRequestsWrapper where
  tor_ports : List Nat
  timeout : Nat
  ip_check_url : String
  proxies : Option ProxySettings
deriving DecidableEq, Repr

/-- `__init__(self, tor_ports, timeout)`. -/
def TorRequestsWrapper.init (tor_ports : List Nat) (timeout : Nat) :
    TorRequestsWrapper :=
  { tor_ports := tor_ports
  , timeout := timeout
  , ip_check_url := "https://api.ipify.org?format=json"
  , proxies := none }

/-- A wrapper built with the default arguments `tor_ports=[9150, 9050]`,
`timeout=10`, as the decorator's `TorRequestsWrapper()` does. -/
def mkDefault : TorRequestsWrapper :=
  TorRequestsWrapper.init [9150, 9050] 10

/-- `_create_proxies(self, port)`. -/
def create_proxies (port : Nat) : ProxySettings :=
  { http := "socks5h://127.0.0.1:" ++ toString port
  , https := "socks5h://127.0.0.1:" ++ toString port }

/-- Python inequality `tor_ip != direct_ip` where `tor_ip` is a string and
`direct_ip` is a string or `None`: a string never equals `None`. -/
def pyNeOpt (s : String) (o : Option String) : Bool :=
  match o with
  | none => true
  | some t => s != t

/-- `_get_direct_ip(self)`: a direct probe; `requests.RequestException` is
caught and yields `None`, any other exception propagates. -/
def get_direct_ip (env : Net) (w : TorRequestsWrapper) :
    Except PyErr (Option String) :=
  match env.probe w.ip_check_url none w.timeout with
  | .ok ip => .ok (some ip)
  | .requestError => .ok none
  | .socketError => .error .socketError
  | .missingIpField => .error .keyError

/-- `_get_tor_ip(self)`: a probe through `self.proxies`; the
`except ... raise` clause re-raises `requests.RequestException`, so every
failure propagates to the caller. -/
def get_tor_ip (env : Net) (w : TorRequestsWrapper) : Except PyErr String :=
  match env.probe w.ip_check_url w.proxies w.timeout with
  | .ok ip => .ok ip
  | .requestError => .error .requestError
  | .socketError => .error .socketError
  | .missingIpField => .error .keyError

/-- The `for port in self.tor_ports` loop of `check_tor_connection`.
Each iteration first assigns `self.proxies = self._create_proxies(port)`,
then probes; `requests.RequestException` and `socket.error` are caught and
the loop moves on, any other exception propagates with the mutation kept. -/
def check_loop (env : Net) (direct_ip : Option String) :
    TorRequestsWrapper → List Nat → Except PyErr Bool × TorRequestsWrapper
  | w, [] => (.ok false, w)
  | w, port :: rest =>
    let w1 := { w with proxies := some (create_proxies port) }
    match get_tor_ip env w1 with
    | .ok tor_ip =>
      if tor_ip != "" && pyNeOpt tor_ip direct_ip then (.ok true, w1)
      else check_loop env direct_ip w1 rest
    | .error .requestError => check_loop env direct_ip w1 rest
    | .error .socketError => check_loop env direct_ip w1 rest
    | .error e => (.error e, w1)

/-- `check_tor_connection(self)`. -/
def check_tor_connection (env : Net) (w : TorRequestsWrapper) :
    Except PyErr Bool × TorRequestsWrapper :=
  match get_direct_ip env w with
  | .error e => (.error e, w)
  | .ok direct_ip => check_loop env direct_ip w w.tor_ports

/-- A value passed in a request's keyword arguments: either the proxies
dict or some opaque caller-supplied value (header dict, body, JSON payload,
query params, ...). -/
inductive Val where
  | proxiesVal (p : ProxySettings)
  | passthrough (s : String)
deriving DecidableEq, Repr

/-- Keyword arguments, as an ordered key-value map (Python dict). -/
def Kwargs : Type := List (String × Val)

/-- Python dict assignment `kwargs[k] = v`: replace the value if the key is
present, append otherwise. -/
def setKw : List (String × Val) → String → Val → List (String × Val)
  | [], k, v => [(k, v)]
  | (k0, v0) :: rest, k, v =>
    if k0 == k then (k, v) :: rest else (k0, v0) :: setKw rest k v

/-- Python dict lookup `kwargs.get(k)`. -/
def getKw : List (String × Val) → String → Option Val
  | [], _ => none
  | (k0, v0) :: rest, k => if k0 == k then some v0 else getKw rest k

/-- The HTTP verbs the wrapper exposes (`getattr(requests, method)` over
the four method names used). -/
inductive Method where
  | get
  | post
  | put
  | delete
deriving DecidableEq, Repr

/-- `_tor_request(self, method, *args, **kwargs)`: raise if `self.proxies`
is falsy, otherwise set `kwargs['proxies'] = self.proxies` and delegate to
the underlying `requests` verb, whose behaviour is the oracle `client`.
The method body assigns no attribute, so the state is returned unchanged. -/
def tor_request_method {Resp : Type}
    (client : Method → List Val → List (String × Val) → Resp)
    (w : TorRequestsWrapper) (method : Method)
    (args : List Val) (kwargs : List (String × Val)) :
    Except PyErr Resp × TorRequestsWrapper :=
  match w.proxies with
  | none => (.error .proxyNotConfigured, w)
  | some p =>
    (.ok (client method args (setKw kwargs "proxies" (.proxiesVal p))), w)

/-- `get(self, *args, **kwargs)`. -/
def TorRequestsWrapper.get {Resp : Type}
    (client : Method → List Val → List (String × Val) → Resp)
    (w : TorRequestsWrapper) (args : List Val)
    (kwargs : List (String × Val)) :
    Except PyErr Resp × TorRequestsWrapper :=
  tor_request_method client w .get args kwargs

/-- `post(self, *args, **kwargs)`. -/
def TorRequestsWrapper.post {Resp : Type}
    (client : Method → List Val → List (String × Val) → Resp)
    (w : TorRequestsWrapper) (args : List Val)
    (kwargs : List (String × Val)) :
    Except PyErr Resp × TorRequestsWrapper :=
  tor_request_method client w .post args kwargs

/-- `put(self, *args, **kwargs)`. -/
def TorRequestsWrapper.put {Resp : Type}
    (client : Method → List Val → List (String × Val) → Resp)
    (w : TorRequestsWrapper) (args : List Val)
    (kwargs : List (String × Val)) :
    Except PyErr Resp × TorRequestsWrapper :=
  tor_request_method client w .put args kwargs

/-- `delete(self, *args, **kwargs)`. -/
def TorRequestsWrapper.delete {Resp : Type}
    (client : Method → List Val → List (String × Val) → Resp)
    (w : TorRequestsWrapper) (args : List Val)
    (kwargs : List (String × Val)) :
    Except PyErr Resp × TorRequestsWrapper :=
  tor_request_method client w .delete args kwargs

/-- The `tor_request` decorator: `wrapper(*args)` builds a fresh default
client, runs `check_tor_connection`, raises on `False`, propagates any
exception, and otherwise calls `func(tor, *args)` on the mutated client. -/
def tor_request {A Resp : Type} (func : TorRequestsWrapper → A → Resp)
    (env : Net) (x : A) : Except PyErr Resp :=
  match check_tor_connection env mkDefault with
  | (.ok true, tor1) => .ok (func tor1 x)
  | (.ok false, _) => .error .torConnectionFailed
  | (.error e, _) => .error e

/-- One step of an instance's lifetime after construction, for stating
which operations may mutate which attributes: either a
`check_tor_connection` call against some network, or one of the HTTP verb
calls against some underlying client. -/
inductive Op where
  | check (env : Net)
  | verb (client : Method → List Val → List (String × Val) → Nat)
      (m : Method) (args : List Val) (kwargs : List (String × Val))

/-- The effect of one operation on the instance's attributes. -/
def runOp (w : TorRequestsWrapper) : Op → TorRequestsWrapper
  | .check env => (check_tor_connection env w).2
  | .verb client m args kwargs => (tor_request_method client w m args kwargs).2

/-- The effect of a sequence of operations on the instance's attributes. -/
def runOps (w : TorRequestsWrapper) : List Op → TorRequestsWrapper
  | [] => w
  | op :: rest => runOps (runOp w op) rest

/-- The last element of the port list, if any (the port whose proxy dict
`check_tor_connection`'s loop assigned last when no port succeeded). -/
def lastPort : List Nat → Option Nat
  | [] => none
  | [p] => some p
  | _ :: q :: rest => lastPort (q :: rest)

/-- A candidate port fails verification without raising an uncaught
exception: its probe either yields an ip failing the
`tor_ip and tor_ip != direct_ip` test, or raises one of the two caught
exception classes. -/
def portFails (env : Net) (url : String) (tmo : Nat) (d : Option String)
    (port : Nat) : Bool :=
  match env.probe url (some (create_proxies port)) tmo with
  | .ok ip => !(ip != "" && pyNeOpt ip d)
  | .requestError => true
  | .socketError => true
  | .missingIpField => false

/-- A candidate port passes verification: its probe yields an ip that is
truthy and differs from the direct ip. -/
def portWorks (env : Net) (url : String) (tmo : Nat) (d : Option String)
    (port : Nat) : Bool :=
  match env.probe url (some (create_proxies port)) tmo with
  | .ok ip => ip != "" && pyNeOpt ip d
  | _ => false

/-- Concrete network for witnesses: the direct IP is 9.9.9.9, port 9150's
probe raises a request exception, every other proxied probe sees 5.5.5.5. -/
def envW : Net :=
  ⟨fun _ pr _ =>
    match pr with
    | none => .ok "9.9.9.9"
    | some p =>
      if p.http = "socks5h://127.0.0.1:9150" then .requestError
      else .ok "5.5.5.5"⟩

/-- Concrete network for the same-IP witnesses: every probe, direct or
proxied, observes the same address 7.7.7.7. -/
def envSame : Net := ⟨fun _ _ _ => .ok "7.7.7.7"⟩

/-- Concrete network where every proxied probe observes 5.5.5.5 while the
direct probe observes 9.9.9.9, so the first candidate port succeeds. -/
def envHit : Net :=
  ⟨fun _ pr _ =>
    match pr with
    | none => .ok "9.9.9.9"
    | some _ => .ok "5.5.5.5"⟩

/-- Concrete network where the direct probe raises a request exception and
every proxied probe observes 3.3.3.3. -/
def envDFail : Net :=
  ⟨fun _ pr _ =>
    match pr with
    | none => .requestError
    | some _ => .ok "3.3.3.3"⟩

/-- Concrete network where the direct probe succeeds and the first
candidate port's response JSON lacks the `'ip'` field. -/
def envKeyErr : Net :=
  ⟨fun _ pr _ =>
    match pr with
    | none => .ok "9.9.9.9"
    | some _ => .missingIpField⟩

/-- Concrete network where the direct probe succeeds, port 9150's response
JSON lacks the `'ip'` field, and every other proxied probe raises a
request exception. -/
def envMix : Net :=
  ⟨fun _ pr _ =>
    match pr with
    | none => .ok "9.9.9.9"
    | some p =>
      if p.http = "socks5h://127.0.0.1:9150" then .missingIpField
      else .requestError⟩

/-- A default client whose verification succeeded at port 9150. -/
def wConfigured : TorRequestsWrapper :=
  { mkDefault with proxies := some (create_proxies 9150) }

/-- A concrete underlying HTTP client for witnesses. -/
def clientConst : Method → List Val → List (String × Val) → Nat :=
  fun _ _ _ => 7

/-- A concrete wrapped function for decorator witnesses. -/
def funcW : TorRequestsWrapper → Nat → Nat := fun _ n => n + 1

theorem check_loop_skip (env : Net) (d : Option String)
    (w : TorRequestsWrapper) (port : Nat) (rest : List Nat)
    (h : portFails env w.ip_check_url w.timeout d port = true) :
    check_loop env d w (port :: rest) =
      check_loop env d { w with proxies := some (create_proxies port) } rest := by
  simp only [check_loop, get_tor_ip]
  unfold portFails at h
  cases hp : env.probe w.ip_check_url (some (create_proxies port)) w.timeout with
  | ok ip =>
    rw [hp] at h
    simp only [Bool.not_eq_true'] at h
    simp [h]
  | requestError => simp [hp]
  | socketError => simp [hp]
  | missingIpField => rw [hp] at h; exact absurd h (by simp)

theorem check_loop_hit (env : Net) (d : Option String)
    (w : TorRequestsWrapper) (port : Nat) (rest : List Nat)
    (h : portWorks env w.ip_check_url w.timeout d port = true) :
    check_loop env d w (port :: rest) =
      (.ok true, { w with proxies := some (create_proxies port) }) := by
  simp only [check_loop, get_tor_ip]
  unfold portWorks at h
  cases hp : env.probe w.ip_check_url (some (create_proxies port)) w.timeout with
  | ok ip =>
    rw [hp] at h
    have h2 : (ip != "" && pyNeOpt ip d) = true := h
    simp [h2]
  | requestError => rw [hp] at h; exact absurd h (by simp)
  | socketError => rw [hp] at h; exact absurd h (by simp)
  | missingIpField => rw [hp] at h; exact absurd h (by simp)

theorem check_loop_firstWorking (env : Net) (d : Option String) :
    ∀ (pre : List Nat) (w : TorRequestsWrapper) (port : Nat) (rest : List Nat),
    (∀ p ∈ pre, portFails env w.ip_check_url w.timeout d p = true) →
    portWorks env w.ip_check_url w.timeout d port = true →
    check_loop env d w (pre ++ port :: rest) =
      (.ok true, { w with proxies := some (create_proxies port) }) := by
  intro pre
  induction pre with
  | nil => intro w port rest _ hport; exact check_loop_hit env d w port rest hport
  | cons q qs ih =>
    intro w port rest hpre hport
    have hq : portFails env w.ip_check_url w.timeout d q = true :=
      hpre q (List.mem_cons_self q qs)
    rw [List.cons_append, check_loop_skip env d w q (qs ++ port :: rest) hq]
    exact ih { w with proxies := some (create_proxies q) } port rest
      (fun p hp => hpre p (List.mem_cons_of_mem q hp)) hport

/-- C3: for every configured port list, `check_tor_connection` probes the
candidate ports strictly in configured order; at the first port whose
probed IP is present (truthy) and differs from the direct IP it stores that
port's proxy settings as the active configuration and returns `True`
immediately, probing no further port (the conclusion is independent of the
behaviour of the ports after `port`). -/
theorem check_tor_connection_first_success
    (env : Net) (w : TorRequestsWrapper) (d : Option String)
    (pre : List Nat) (port : Nat) (rest : List Nat)
    (hd : get_direct_ip env w = .ok d)
    (hports : w.tor_ports = pre ++ port :: rest)
    (hpre : ∀ p ∈ pre, portFails env w.ip_check_url w.timeout d p = true)
    (hport : portWorks env w.ip_check_url w.timeout d port = true) :
    check_tor_connection env w =
      (.ok true, { w with proxies := some (create_proxies port) }) := by
  have key : check_loop env d w w.tor_ports =
      (.ok true, { w with proxies := some (create_proxies port) }) := by
    conv_lhs => rw [hports]
    exact check_loop_firstWorking env d pre w port rest hpre hport
  simp only [check_tor_connection, hd]
  exact key

theorem check_tor_connection_first_success_witness :
    portWorks envW mkDefault.ip_check_url mkDefault.timeout
      (some "9.9.9.9") 9050 = true ∧
    check_tor_connection envW mkDefault =
      (.ok true, { mkDefault with proxies := some (create_proxies 9050) }) :=
  ⟨by decide,
   check_tor_connection_first_success envW mkDefault (some "9.9.9.9")
     [9150] 9050 [] rfl rfl (by decide) (by decide)⟩

/-- C4: during verification, a candidate port whose probed IP equals the
previously obtained direct IP is treated as a verification failure: the
loop does not return `True` at that port and moves on to the next
candidates, and if that port was the last candidate the loop returns
`False`. -/
theorem same_ip_port_moves_on (env : Net) (d : Option String)
    (w : TorRequestsWrapper) (port : Nat) (rest : List Nat) (ip : String)
    (hprobe : env.probe w.ip_check_url (some (create_proxies port)) w.timeout
      = .ok ip)
    (hsame : d = some ip) :
    check_loop env d w (port :: rest) =
      check_loop env d { w with proxies := some (create_proxies port) } rest ∧
    check_loop env d w [port] =
      (.ok false, { w with proxies := some (create_proxies port) }) := by
  subst hsame
  constructor
  · simp only [check_loop, get_tor_ip, hprobe]
    simp [pyNeOpt]
  · simp only [check_loop, get_tor_ip, hprobe]
    simp [pyNeOpt]

theorem check_loop_abort (env : Net) (d : Option String)
    (w : TorRequestsWrapper) (port : Nat) (rest : List Nat)
    (hkey : env.probe w.ip_check_url (some (create_proxies port)) w.timeout
      = .missingIpField) :
    check_loop env d w (port :: rest) =
      (.error .keyError, { w with proxies := some (create_proxies port) }) := by
  simp only [check_loop, get_tor_ip, hkey]

theorem check_loop_pre_abort (env : Net) (d : Option String) :
    ∀ (pre : List Nat) (w : TorRequestsWrapper) (port : Nat) (rest : List Nat),
    (∀ p ∈ pre, portFails env w.ip_check_url w.timeout d p = true) →
    env.probe w.ip_check_url (some (create_proxies port)) w.timeout
      = .missingIpField →
    (check_loop env d w (pre ++ port :: rest)).1 = .error .keyError := by
  intro pre
  induction pre with
  | nil =>
    intro w port rest _ hkey
    rw [List.nil_append, check_loop_abort env d w port rest hkey]
  | cons q qs ih =>
    intro w port rest hpre hkey
    have hq : portFails env w.ip_check_url w.timeout d q = true :=
      hpre q (List.mem_cons_self q qs)
    rw [List.cons_append, check_loop_skip env d w q (qs ++ port :: rest) hq]
    exact ih { w with proxies := some (create_proxies q) } port rest
      (fun p hp => hpre p (List.mem_cons_of_mem q hp)) hkey

theorem check_loop_none_direct (env : Net) :
    ∀ (ports : List Nat) (w : TorRequestsWrapper),
    (∀ p ∈ ports,
      env.probe w.ip_check_url (some (create_proxies p)) w.timeout
        ≠ .missingIpField) →
    (∃ p ∈ ports, ∃ ip, ip ≠ "" ∧
      env.probe w.ip_check_url (some (create_proxies p)) w.timeout = .ok ip) →
    (check_loop env none w ports).1 = .ok true := by
  intro ports
  induction ports with
  | nil =>
    intro w _ hex
    rcases hex with ⟨p, hp, _⟩
    exact absurd hp (List.not_mem_nil p)
  | cons q qs ih =>
    intro w hno hex
    cases hq : env.probe w.ip_check_url (some (create_proxies q)) w.timeout with
    | ok ip =>
      by_cases hip : ip = ""
      · subst hip
        have hfail : portFails env w.ip_check_url w.timeout none q = true := by
          simp [portFails, hq]
        rw [check_loop_skip env none w q qs hfail]
        apply ih
        · intro p hp
          exact hno p (List.mem_cons_of_mem q hp)
        · rcases hex with ⟨p, hp, ip2, hip2, hprobe⟩
          rcases List.mem_cons.mp hp with h | h
          · subst h
            rw [hq] at hprobe
            cases hprobe
            exact absurd rfl hip2
          · exact ⟨p, h, ip2, hip2, hprobe⟩
      · have hwork : portWorks env w.ip_check_url w.timeout none q = true := by
          simp [portWorks, hq, pyNeOpt, hip]
        rw [check_loop_hit env none w q qs hwork]
    | requestError =>
      have hfail : portFails env w.ip_check_url w.timeout none q = true := by
        simp [portFails, hq]
      rw [check_loop_skip env none w q qs hfail]
      apply ih
      · intro p hp
        exact hno p (List.mem_cons_of_mem q hp)
      · rcases hex with ⟨p, hp, ip2, hip2, hprobe⟩
        rcases List.mem_cons.mp hp with h | h
        · subst h
          rw [hq] at hprobe
          cases hprobe
        · exact ⟨p, h, ip2, hip2, hprobe⟩
    | socketError =>
      have hfail : portFails env w.ip_check_url w.timeout none q = true := by
        simp [portFails, hq]
      rw [check_loop_skip env none w q qs hfail]
      apply ih
      · intro p hp
        exact hno p (List.mem_cons_of_mem q hp)
      · rcases hex with ⟨p, hp, ip2, hip2, hprobe⟩
        rcases List.mem_cons.mp hp with h | h
        · subst h
          rw [hq] at hprobe
          cases hprobe
        · exact ⟨p, h, ip2, hip2, hprobe⟩
    | missingIpField =>
      exact absurd hq (hno q (List.mem_cons_self q qs))

theorem check_loop_preserves_config (env : Net) (d : Option String) :
    ∀ (ports : List Nat) (w : TorRequestsWrapper),
    (check_loop env d w ports).2.tor_ports = w.tor_ports ∧
    (check_loop env d w ports).2.timeout = w.timeout ∧
    (check_loop env d w ports).2.ip_check_url = w.ip_check_url := by
  intro ports
  induction ports with
  | nil => intro w; exact ⟨rfl, rfl, rfl⟩
  | cons q qs ih =>
    intro w
    simp only [check_loop]
    cases hq : get_tor_ip env { w with proxies := some (create_proxies q) } with
    | ok ip =>
      by_cases hc : (ip != "" && pyNeOpt ip d) = true
      · simp [hc]
      · simp only [hc]
        simpa using ih { w with proxies := some (create_proxies q) }
    | error e =>
      cases e with
      | requestError => simpa using ih { w with proxies := some (create_proxies q) }
      | socketError => simpa using ih { w with proxies := some (create_proxies q) }
      | keyError => exact ⟨rfl, rfl, rfl⟩
      | proxyNotConfigured => exact ⟨rfl, rfl, rfl⟩
      | torConnectionFailed => exact ⟨rfl, rfl, rfl⟩

theorem check_loop_false_proxies (env : Net) (d : Option String) :
    ∀ (ports : List Nat) (w : TorRequestsWrapper) (p : Nat),
    lastPort ports = some p →
    (check_loop env d w ports).1 = .ok false →
    (check_loop env d w ports).2.proxies = some (create_proxies p) := by
  intro ports
  induction ports with
  | nil =>
    intro w p hlast _
    exact absurd hlast (by simp [lastPort])
  | cons q qs ih =>
    intro w p hlast hfalse
    have hstep : check_loop env d w (q :: qs) =
        check_loop env d { w with proxies := some (create_proxies q) } qs := by
      cases hq : env.probe w.ip_check_url (some (create_proxies q)) w.timeout with
      | ok ip =>
        by_cases hc : (ip != "" && pyNeOpt ip d) = true
        · exfalso
          have hwork : portWorks env w.ip_check_url w.timeout d q = true := by
            simp [portWorks, hq, hc]
          rw [check_loop_hit env d w q qs hwork] at hfalse
          exact absurd hfalse (by simp)
        · have hb : (ip != "" && pyNeOpt ip d) = false := by
            revert hc
            cases (ip != "" && pyNeOpt ip d) <;> simp
          exact check_loop_skip env d w q qs (by simp [portFails, hq, hb])
      | requestError =>
        exact check_loop_skip env d w q qs (by simp [portFails, hq])
      | socketError =>
        exact check_loop_skip env d w q qs (by simp [portFails, hq])
      | missingIpField =>
        exfalso
        rw [check_loop_abort env d w q qs hq] at hfalse
        exact absurd hfalse (by simp)
    rw [hstep] at hfalse ⊢
    cases qs with
    | nil =>
      have hpq : p = q := by
        simp [lastPort] at hlast
        exact hlast.symm
      subst hpq
      rfl
    | cons q2 qs2 =>
      have hlast2 : lastPort (q2 :: qs2) = some p := hlast
      exact ih { w with proxies := some (create_proxies q) } p hlast2 hfalse

theorem tor_request_method_snd {Resp : Type}
    (client : Method → List Val → List (String × Val) → Resp)
    (w : TorRequestsWrapper) (m : Method) (args : List Val)
    (kwargs : List (String × Val)) :
    (tor_request_method client w m args kwargs).2 = w := by
  cases hp : w.proxies <;> simp [tor_request_method, hp]

theorem runOp_preserves_config (w : TorRequestsWrapper) (op : Op) :
    (runOp w op).tor_ports = w.tor_ports ∧
    (runOp w op).timeout = w.timeout ∧
    (runOp w op).ip_check_url = w.ip_check_url := by
  cases op with
  | check env =>
    simp only [runOp, check_tor_connection]
    cases hd : get_direct_ip env w with
    | ok d => simpa using check_loop_preserves_config env d w.tor_ports w
    | error e => exact ⟨rfl, rfl, rfl⟩
  | verb client m args kwargs =>
    simp [runOp, tor_request_method_snd]

theorem getKw_setKw_same (kwargs : List (String × Val)) (k : String) (v : Val) :
    getKw (setKw kwargs k v) k = some v := by
  induction kwargs with
  | nil => simp [setKw, getKw]
  | cons hd tl ih =>
    obtain ⟨k0, v0⟩ := hd
    by_cases h : k0 = k
    · simp [setKw, getKw, h]
    · simp [setKw, getKw, h, ih]

theorem getKw_setKw_other (kwargs : List (String × Val)) (k k2 : String)
    (v : Val) (h : k2 ≠ k) :
    getKw (setKw kwargs k v) k2 = getKw kwargs k2 := by
  have hne : k ≠ k2 := fun hh => h hh.symm
  induction kwargs with
  | nil => simp [setKw, getKw, hne]
  | cons hd tl ih =>
    obtain ⟨k0, v0⟩ := hd
    by_cases h0 : k0 = k
    · subst h0
      simp [setKw, getKw, hne]
    · simp [setKw, getKw, h0, ih]

theorem same_ip_port_moves_on_witness :
    envSame.probe mkDefault.ip_check_url (some (create_proxies 9150))
      mkDefault.timeout = .ok "7.7.7.7" ∧
    check_loop envSame (some "7.7.7.7") mkDefault [9150] =
      (.ok false, { mkDefault with proxies := some (create_proxies 9150) }) :=
  ⟨rfl,
   (same_ip_port_moves_on envSame (some "7.7.7.7") mkDefault 9150 []
     "7.7.7.7" rfl rfl).2⟩

/-- C5: if the direct-IP probe fails with a request exception,
`check_tor_connection` proceeds with a null direct IP (`_get_direct_ip`
returns `None` instead of aborting), and if some candidate port's probe
then succeeds with any (truthy) IP while no probe raises an uncaught
error, the call returns `True`. -/
theorem direct_fail_then_any_ip_succeeds (env : Net) (w : TorRequestsWrapper)
    (hd : env.probe w.ip_check_url none w.timeout = .requestError)
    (hno : ∀ p ∈ w.tor_ports,
      env.probe w.ip_check_url (some (create_proxies p)) w.timeout
        ≠ .missingIpField)
    (hex : ∃ p ∈ w.tor_ports, ∃ ip, ip ≠ "" ∧
      env.probe w.ip_check_url (some (create_proxies p)) w.timeout = .ok ip) :
    get_direct_ip env w = .ok none ∧
    (check_tor_connection env w).1 = .ok true := by
  have hdir : get_direct_ip env w = .ok none := by
    simp [get_direct_ip, hd]
  refine ⟨hdir, ?_⟩
  simp only [check_tor_connection, hdir]
  exact check_loop_none_direct env w.tor_ports w hno hex

theorem direct_fail_then_any_ip_succeeds_witness :
    envDFail.probe mkDefault.ip_check_url none mkDefault.timeout
      = .requestError ∧
    (check_tor_connection envDFail mkDefault).1 = .ok true :=
  ⟨rfl,
   (direct_fail_then_any_ip_succeeds envDFail mkDefault rfl (by decide)
      ⟨9150, by decide, "3.3.3.3", by decide, rfl⟩).2⟩

/-- C10: during verification only `requests.RequestException` and
`socket.error` on a candidate port are caught and treated as that port
failing (the loop then moves on to the remaining candidates), while a
response whose JSON parses but lacks the `'ip'` field makes the resulting
`KeyError` propagate out of `check_tor_connection` uncaught. -/
theorem only_transport_errors_caught
    (env : Net) (w w2 : TorRequestsWrapper) (d d2 : Option String)
    (pre : List Nat) (port : Nat) (rest : List Nat) (q : Nat)
    (rest2 : List Nat)
    (hd : get_direct_ip env w = .ok d)
    (hports : w.tor_ports = pre ++ port :: rest)
    (hpre : ∀ p ∈ pre, portFails env w.ip_check_url w.timeout d p = true)
    (hkey : env.probe w.ip_check_url (some (create_proxies port)) w.timeout
      = .missingIpField)
    (hq : env.probe w2.ip_check_url (some (create_proxies q)) w2.timeout
        = .requestError ∨
      env.probe w2.ip_check_url (some (create_proxies q)) w2.timeout
        = .socketError) :
    (check_tor_connection env w).1 = .error .keyError ∧
    check_loop env d2 w2 (q :: rest2) =
      check_loop env d2 { w2 with proxies := some (create_proxies q) }
        rest2 := by
  constructor
  · have key : (check_loop env d w w.tor_ports).1 = .error .keyError := by
      rw [hports]
      exact check_loop_pre_abort env d pre w port rest hpre hkey
    simp only [check_tor_connection, hd]
    exact key
  · rcases hq with hq | hq
    · exact check_loop_skip env d2 w2 q rest2 (by simp [portFails, hq])
    · exact check_loop_skip env d2 w2 q rest2 (by simp [portFails, hq])

theorem only_transport_errors_caught_witness :
    envMix.probe mkDefault.ip_check_url (some (create_proxies 9150))
      mkDefault.timeout = .missingIpField ∧
    (check_tor_connection envMix mkDefault).1 = .error .keyError :=
  ⟨rfl,
   (only_transport_errors_caught envMix mkDefault mkDefault
      (some "9.9.9.9") none [] 9150 [9050] 9050 []
      rfl rfl (by decide) rfl (Or.inl rfl)).1⟩

/-- C1 counterexample: with the default client and a network where every
probe observes the same IP, `check_tor_connection` returns `False`, yet
the `proxies` attribute is not `None` afterwards: the loop left it holding
the last candidate port's dict (port 9050). -/
theorem check_false_proxies_not_none_cex :
    (check_tor_connection envSame mkDefault).1 = .ok false ∧
    (check_tor_connection envSame mkDefault).2.proxies
      = some (create_proxies 9050) ∧
    (check_tor_connection envSame mkDefault).2.proxies ≠ none := by
  refine ⟨rfl, rfl, ?_⟩
  decide

/-- C1 (amended): if `check_tor_connection` returns `False`, the `proxies`
attribute does not stay `None`: it holds the proxy dict of the last
candidate port (the loop assigned `self.proxies` for each port before
probing and never reset it); it is `None` only when the port list is
empty. -/
theorem check_false_proxies_last
    (env : Net) (w : TorRequestsWrapper) (p : Nat)
    (hlast : lastPort w.tor_ports = some p)
    (hfalse : (check_tor_connection env w).1 = .ok false) :
    (check_tor_connection env w).2.proxies = some (create_proxies p) := by
  cases hd : get_direct_ip env w with
  | error e =>
    simp only [check_tor_connection, hd] at hfalse
    exact Except.noConfusion hfalse
  | ok d =>
    simp only [check_tor_connection, hd] at hfalse ⊢
    exact check_loop_false_proxies env d w.tor_ports w p hlast hfalse

theorem check_false_proxies_last_witness :
    lastPort mkDefault.tor_ports = some 9050 ∧
    (check_tor_connection envSame mkDefault).2.proxies
      = some (create_proxies 9050) :=
  ⟨rfl, check_false_proxies_last envSame mkDefault 9050 rfl rfl⟩

/-- C2 counterexample: construct the default client, call
`check_tor_connection` once against a network where every probe observes
the same IP — the call returns `False`, so no call has returned `True` —
and then invoke `get`: instead of raising the configuration error the
dispatch invokes the underlying HTTP client (whose response 7 is
returned) through the stale proxy dict left over from port 9050. -/
theorem verb_after_failed_check_cex :
    (check_tor_connection envSame mkDefault).1 = .ok false ∧
    (tor_request_method clientConst (check_tor_connection envSame mkDefault).2
        .get [] []).1 = .ok 7 ∧
    (tor_request_method clientConst (check_tor_connection envSame mkDefault).2
        .get [] []).1 ≠ .error .proxyNotConfigured :=
  ⟨rfl, rfl, fun h => Except.noConfusion h⟩

/-- C2 (amended): HTTP verb dispatch raises the configuration error — for
every underlying client, which is therefore never invoked — exactly when
the `proxies` attribute is `None`; that holds on every freshly constructed
client (one on which `check_tor_connection` has never been called), but
not after a `check_tor_connection` call that returned `False` on a
nonempty port list, which leaves `proxies` set to the last tried port's
dict. -/
theorem verb_not_configured_fails_fast {Resp : Type}
    (client : Method → List Val → List (String × Val) → Resp)
    (w : TorRequestsWrapper) (m : Method) (args : List Val)
    (kwargs : List (String × Val)) (ports : List Nat) (tmo : Nat)
    (hnone : w.proxies = none) :
    tor_request_method client w m args kwargs
      = (.error .proxyNotConfigured, w) ∧
    (TorRequestsWrapper.init ports tmo).proxies = none ∧
    mkDefault.proxies = none := by
  refine ⟨?_, rfl, rfl⟩
  simp [tor_request_method, hnone]

theorem verb_not_configured_fails_fast_witness :
    mkDefault.proxies = none ∧
    tor_request_method clientConst mkDefault .get [] []
      = (.error .proxyNotConfigured, mkDefault) :=
  ⟨rfl,
   (verb_not_configured_fails_fast clientConst mkDefault .get [] []
      [9150, 9050] 10 rfl).1⟩

/-- C6: for every port number p, `_create_proxies` maps both the `'http'`
and the `'https'` scheme to the string `socks5h://127.0.0.1:` followed by
p; in particular, after a `check_tor_connection` that succeeds at
candidate port 9150, every subsequent verb dispatch attaches
`socks5h://127.0.0.1:9150` as the proxy for both schemes. -/
theorem create_proxies_socks5h {Resp : Type}
    (client : Method → List Val → List (String × Val) → Resp)
    (env : Net) (w0 : TorRequestsWrapper) (d : Option String)
    (pre rest : List Nat) (m : Method) (args : List Val)
    (kwargs : List (String × Val)) (p : Nat)
    (hd : get_direct_ip env w0 = .ok d)
    (hports : w0.tor_ports = pre ++ 9150 :: rest)
    (hpre : ∀ q ∈ pre, portFails env w0.ip_check_url w0.timeout d q = true)
    (hhit : portWorks env w0.ip_check_url w0.timeout d 9150 = true) :
    (create_proxies p).http = "socks5h://127.0.0.1:" ++ toString p ∧
    (create_proxies p).https = (create_proxies p).http ∧
    (check_tor_connection env w0).1 = .ok true ∧
    (tor_request_method client (check_tor_connection env w0).2 m args
        kwargs).1
      = .ok (client m args
          (setKw kwargs "proxies" (.proxiesVal (create_proxies 9150)))) ∧
    getKw (setKw kwargs "proxies" (.proxiesVal (create_proxies 9150)))
        "proxies"
      = some (.proxiesVal { http := "socks5h://127.0.0.1:9150"
                          , https := "socks5h://127.0.0.1:9150" }) := by
  have hconn : check_tor_connection env w0 =
      (.ok true, { w0 with proxies := some (create_proxies 9150) }) := by
    have key : check_loop env d w0 w0.tor_ports =
        (.ok true, { w0 with proxies := some (create_proxies 9150) }) := by
      conv_lhs => rw [hports]
      exact check_loop_firstWorking env d pre w0 9150 rest hpre hhit
    simp only [check_tor_connection, hd]
    exact key
  refine ⟨rfl, rfl, ?_, ?_, ?_⟩
  · rw [hconn]
  · rw [hconn]
    simp [tor_request_method]
  · rw [getKw_setKw_same]
    decide

theorem create_proxies_socks5h_witness :
    portWorks envHit mkDefault.ip_check_url mkDefault.timeout
      (some "9.9.9.9") 9150 = true ∧
    getKw (setKw [] "proxies" (.proxiesVal (create_proxies 9150))) "proxies"
      = some (.proxiesVal { http := "socks5h://127.0.0.1:9150"
                          , https := "socks5h://127.0.0.1:9150" }) :=
  ⟨by decide,
   (create_proxies_socks5h clientConst envHit mkDefault (some "9.9.9.9")
      [] [9050] .get [] [] 9150 rfl rfl (by decide) (by decide)).2.2.2.2⟩

/-- C7: on a client with active proxy settings, every verb call
(get/post/put/delete all forward to the single dispatch) sets only the
`'proxies'` option to the active settings, passes every other
caller-supplied option and all positional arguments to the underlying
HTTP client unchanged, returns that client's response unmodified, and
leaves the instance state untouched. -/
theorem verb_dispatch_passthrough {Resp : Type}
    (client : Method → List Val → List (String × Val) → Resp)
    (w : TorRequestsWrapper) (p : ProxySettings) (m : Method)
    (args : List Val) (kwargs : List (String × Val)) (k : String)
    (hp : w.proxies = some p) (hk : k ≠ "proxies") :
    (tor_request_method client w m args kwargs).1
      = .ok (client m args (setKw kwargs "proxies" (.proxiesVal p))) ∧
    getKw (setKw kwargs "proxies" (.proxiesVal p)) "proxies"
      = some (.proxiesVal p) ∧
    getKw (setKw kwargs "proxies" (.proxiesVal p)) k = getKw kwargs k ∧
    (tor_request_method client w m args kwargs).2 = w ∧
    TorRequestsWrapper.get client w args kwargs
      = tor_request_method client w .get args kwargs ∧
    TorRequestsWrapper.post client w args kwargs
      = tor_request_method client w .post args kwargs ∧
    TorRequestsWrapper.put client w args kwargs
      = tor_request_method client w .put args kwargs ∧
    TorRequestsWrapper.delete client w args kwargs
      = tor_request_method client w .delete args kwargs := by
  refine ⟨?_, getKw_setKw_same kwargs "proxies" _,
    getKw_setKw_other kwargs "proxies" k _ hk,
    tor_request_method_snd client w m args kwargs, rfl, rfl, rfl, rfl⟩
  simp [tor_request_method, hp]

theorem verb_dispatch_passthrough_witness :
    wConfigured.proxies = some (create_proxies 9150) ∧
    (tor_request_method clientConst wConfigured .post
        [Val.passthrough "https://example.com"]
        [("headers", Val.passthrough "h")]).1
      = .ok (clientConst .post [Val.passthrough "https://example.com"]
          (setKw [("headers", Val.passthrough "h")] "proxies"
            (.proxiesVal (create_proxies 9150)))) ∧
    getKw (setKw [("headers", Val.passthrough "h")] "proxies"
        (.proxiesVal (create_proxies 9150))) "headers"
      = getKw [("headers", Val.passthrough "h")] "headers" :=
  ⟨rfl,
   (verb_dispatch_passthrough clientConst wConfigured (create_proxies 9150)
      .post [Val.passthrough "https://example.com"]
      [("headers", Val.passthrough "h")] "headers" rfl (by decide)).1,
   (verb_dispatch_passthrough clientConst wConfigured (create_proxies 9150)
      .post [Val.passthrough "https://example.com"]
      [("headers", Val.passthrough "h")] "headers" rfl (by decide)).2.2.1⟩

/-- C8: the decorator-produced wrapper builds a fresh default client and
runs verification: when verification returns `False` it raises the
connection error — for every wrapped function, which is therefore never
invoked — and when verification returns `True` it returns exactly the
wrapped function applied to the verified (mutated) client and the
original argument. -/
theorem tor_request_wrapper_spec {A Resp : Type}
    (func : TorRequestsWrapper → A → Resp) (env : Net) (x : A) :
    ((check_tor_connection env mkDefault).1 = .ok false →
      tor_request func env x = .error .torConnectionFailed) ∧
    ((check_tor_connection env mkDefault).1 = .ok true →
      tor_request func env x
        = .ok (func (check_tor_connection env mkDefault).2 x)) := by
  constructor
  · intro h
    unfold tor_request
    rcases hc : check_tor_connection env mkDefault with ⟨r, w1⟩
    rw [hc] at h
    have hr : r = .ok false := h
    subst hr
    rfl
  · intro h
    unfold tor_request
    rcases hc : check_tor_connection env mkDefault with ⟨r, w1⟩
    rw [hc] at h
    have hr : r = .ok true := h
    subst hr
    rfl

theorem tor_request_wrapper_spec_witness :
    tor_request funcW envSame 41 = .error .torConnectionFailed ∧
    tor_request funcW envHit 41
      = .ok (funcW (check_tor_connection envHit mkDefault).2 41) :=
  ⟨(tor_request_wrapper_spec funcW envSame 41).1 rfl,
   (tor_request_wrapper_spec funcW envHit 41).2 rfl⟩

/-- C9: over every sequence of operations after construction the three
configuration attributes (`tor_ports`, `timeout`, `ip_check_url`) are
never modified, and the `proxies` attribute is mutated only by
`check_tor_connection`: every HTTP verb operation leaves the whole
instance state unchanged. -/
theorem config_immutable_verbs_pure (w : TorRequestsWrapper)
    (ops : List Op) :
    ((runOps w ops).tor_ports = w.tor_ports ∧
     (runOps w ops).timeout = w.timeout ∧
     (runOps w ops).ip_check_url = w.ip_check_url) ∧
    ∀ (client : Method → List Val → List (String × Val) → Nat)
      (m : Method) (args : List Val) (kwargs : List (String × Val)),
      runOp w (Op.verb client m args kwargs) = w := by
  constructor
  · induction ops generalizing w with
    | nil => exact ⟨rfl, rfl, rfl⟩
    | cons op rest ih =>
      have h1 := runOp_preserves_config w op
      have h2 := ih (runOp w op)
      simp only [runOps]
      exact ⟨h2.1.trans h1.1, h2.2.1.trans h1.2.1, h2.2.2.trans h1.2.2⟩
  · intro client m args kwargs
    simp [runOp, tor_request_method_snd]

end TorWrap
